import Mathlib

/-!
Shallow embedding of the MCP stdio client/server pair
(`src/mcp-implementation/mcp_client.py`, `src/mcp-implementation/mcp_server.py`).

JSON values are modelled by `MCP.JVal`; Python dicts keyed by strings or
integers are modelled by association lists together with the dict
operations `pyLookup` / `pySet` / `pyErase` (insert-or-assign and delete).
A wire message is a record of the optional JSON-RPC fields actually read
by the code (`jsonrpc`, `id`, `method`, `params`, `result`, `error`); a
response whose `id` key holds JSON null is conflated with a response that
lacks the key, which no modelled branch distinguishes.  Python exceptions
raised by handlers are modelled by `PyExc` (a `ValueError` versus any
other `Exception`), and fallible handler calls return `Except PyExc JVal`.
-/

namespace MCP

/-- A JSON value, as produced by `json.loads` on one line of the wire. -/
inductive JVal where
  | null
  | bool (b : Bool)
  | num (n : Int)
  | str (s : String)
  | arr (elems : List JVal)
  | obj (fields : List (String × JVal))

/-- Python `d.get(key)` on a dict modelled as an association list
(first binding wins, as `pySet` never leaves duplicate keys behind). -/
def pyLookup {K V : Type} [DecidableEq K] : List (K × V) → K → Option V
  | [], _ => none
  | (k, v) :: rest, key => if k = key then some v else pyLookup rest key

/-- Python `del d[key]` (total: deleting an absent key is the identity here;
every modelled call site guards presence the way the source does). -/
def pyErase {K V : Type} [DecidableEq K] : List (K × V) → K → List (K × V)
  | [], _ => []
  | (k, v) :: rest, key =>
      if k = key then pyErase rest key else (k, v) :: pyErase rest key

/-- Python `d[key] = v` (insert-or-assign). -/
def pySet {K V : Type} [DecidableEq K] (d : List (K × V)) (key : K) (v : V) :
    List (K × V) :=
  (key, v) :: pyErase d key

theorem pyLookup_pyErase_self {K V : Type} [DecidableEq K]
    (d : List (K × V)) (k : K) : pyLookup (pyErase d k) k = none := by
  induction d with
  | nil => rfl
  | cons kv rest ih =>
      obtain ⟨k', v⟩ := kv
      by_cases h : k' = k
      · simpa [pyErase, h] using ih
      · simp [pyErase, pyLookup, h, ih]

theorem pyLookup_pyErase_ne {K V : Type} [DecidableEq K]
    (d : List (K × V)) {k j : K} (h : k ≠ j) :
    pyLookup (pyErase d k) j = pyLookup d j := by
  induction d with
  | nil => rfl
  | cons kv rest ih =>
      obtain ⟨k', v⟩ := kv
      by_cases hk : k' = k
      · subst hk
        simp [pyErase, pyLookup, h, ih]
      · by_cases hj : k' = j
        · subst hj
          simp [pyErase, pyLookup, hk]
        · simp [pyErase, pyLookup, hk, hj, ih]

theorem pyLookup_pySet_self {K V : Type} [DecidableEq K]
    (d : List (K × V)) (k : K) (v : V) : pyLookup (pySet d k v) k = some v := by
  simp [pySet, pyLookup]

theorem pyLookup_pySet_ne {K V : Type} [DecidableEq K]
    (d : List (K × V)) {k j : K} (v : V) (h : k ≠ j) :
    pyLookup (pySet d k v) j = pyLookup d j := by
  simp [pySet, pyLookup, h, pyLookup_pyErase_ne d h]

/-- The `error` member of a reply: `{code, message, data?}`. -/
structure ErrObj where
  code : Int
  message : String
  data : Option (List (String × JVal))

/-- One decoded wire message; only the keys the code reads are modelled. -/
structure Message where
  jsonrpc : Option String := some "2.0"
  id : Option Int := none
  method : Option String := none
  params : Option (List (String × JVal)) := none
  result : Option JVal := none
  error : Option ErrObj := none

/-- A raw inbound line, pre-classified by the outcome of `json.loads`:
blank after `strip()`, undecodable, or a decoded message. -/
inductive Line where
  | blank
  | malformed (raw : String)
  | msg (m : Message)

/-- A Python exception escaping a handler: the router distinguishes
`ValueError` from every other `Exception`.  `text` is `str(e)`. -/
inductive PyExc where
  | valueError (text : String)
  | otherExc (text : String)
  deriving DecidableEq

/-- `str(e)` of a modelled exception. -/
def PyExc.text : PyExc → String
  | .valueError t => t
  | .otherExc t => t

/-- Python `str(v)` for the JSON values that reach string interpolation
(`None`/`True`/`False`/numbers/strings as in CPython; container reprs are
abbreviated, no verified claim depends on them). -/
def pyStr : JVal → String
  | .null => "None"
  | .bool true => "True"
  | .bool false => "False"
  | .num n => toString n
  | .str s => s
  | .arr _ => "[...]"
  | .obj _ => "\x7b...\x7d"

/-- `str` of a `params.get(...)` result (missing key gives Python `None`). -/
def pyStrOpt : Option JVal → String
  | none => "None"
  | some v => pyStr v

/-- The string key a `params.get(...)` value matches in a string-keyed dict
membership test (a non-string value is never `in` such a dict). -/
def strKey : Option JVal → Option String
  | some (.str s) => some s
  | _ => none

end MCP

namespace MCP

/-! ## Client (`mcp_client.py`) -/

/-- The mutable state of `MCPClient` that the correlation engine reads:
`next_id`, `pending_requests` (id → arrival-ordered queue contents),
`running`, whether `self.process`/`stdin` exist (`connected`), and the
post-handshake `server_info` / `server_capabilities` (both `None` until
`_initialize` stores the initialize reply). -/
structure ClientState where
  next_id : Int := 1
  pending_requests : List (Int × List Message) := []
  running : Bool := false
  connected : Bool := false
  server_info : Option JVal := none
  server_capabilities : Option JVal := none

/-- How `_handle_message` classified one inbound message. -/
inductive HandleAction where
  | resolved (rid : Int)
  | notified (methodName : String)
  | unexpected
  deriving DecidableEq

namespace MCPClient

/-- `MCPClient._handle_message` (mcp_client.py:146-161): a message whose
`id` matches a pending request is put on that request's queue; a message
with a `method` and no `id` is logged as a notification; anything else is
logged as unexpected and ignored. -/
def handle_message (st : ClientState) (message : Message) :
    ClientState × HandleAction :=
  match message.id with
  | some rid =>
      match pyLookup st.pending_requests rid with
      | some q =>
          ({ st with
               pending_requests := pySet st.pending_requests rid (q ++ [message]) },
           .resolved rid)
      | none => (st, .unexpected)
  | none =>
      match message.method with
      | some m => (st, .notified m)
      | none => (st, .unexpected)

/-- Outcome of `_send_request` up to the point the request has (not) been
written: rejected before allocating anything (`RuntimeError` "Client not
connected"), write failure (entry deleted again, `RuntimeError`), or sent
with the allocated id and the encoded wire message. -/
inductive SendAttempt where
  | rejected
  | sendFailed (st : ClientState)
  | sent (st : ClientState) (rid : Int) (wire : Message)

/-- `MCPClient._send_request`, first half (mcp_client.py:180-207): guard on
`self.process`/`stdin`, allocate `request_id` from `next_id`, register an
empty queue in `pending_requests`, build the request dict and write it;
`writeOk` models whether `stdin.write`/`flush` raises. -/
def send_request_start (st : ClientState) (methodName : String)
    (params : Option (List (String × JVal))) (writeOk : Bool) : SendAttempt :=
  if st.connected then
    let request_id := st.next_id
    let request : Message :=
      { id := some request_id, method := some methodName, params := params }
    let st1 : ClientState := { st with
      next_id := st.next_id + 1,
      pending_requests := pySet st.pending_requests request_id [] }
    if writeOk then .sent st1 request_id request
    else .sendFailed
      { st1 with pending_requests := pyErase st1.pending_requests request_id }
  else .rejected

/-- What the caller of `_send_request` ultimately observes. -/
inductive CallOutcome where
  | ok (result : JVal)
  | serverError (code : Int) (message : String)
  | timeoutError

/-- Lines 219-227 of `_send_request`: an `error` member raises
`RuntimeError` with the server's code and message, otherwise
`response.get("result", {})` is returned. -/
def deliver (response : Message) : CallOutcome :=
  match response.error with
  | some e => .serverError e.code e.message
  | none => .ok (response.result.getD (.obj []))

/-- `MCPClient._send_request`, second half (mcp_client.py:209-227),
invoked at the moment `response_queue.get(timeout=...)` returns: the queue
argument is the registered queue's contents at that moment.  A non-empty
queue delivers its first message and the `finally` block deletes the
table entry; an empty queue means the deadline elapsed (`Empty`), the
entry is deleted and `TimeoutError` is raised. -/
def send_request_finish (st : ClientState) (request_id : Int) :
    ClientState × CallOutcome :=
  match pyLookup st.pending_requests request_id with
  | some (response :: _) =>
      ({ st with pending_requests := pyErase st.pending_requests request_id },
       deliver response)
  | some [] =>
      ({ st with pending_requests := pyErase st.pending_requests request_id },
       .timeoutError)
  | none => (st, .timeoutError)

/-- One iteration of `_read_loop` (mcp_client.py:107-124): blank lines are
skipped, a `json.JSONDecodeError` is logged and the loop continues, a
decoded message goes to `_handle_message`. -/
def read_step (st : ClientState) (l : Line) : ClientState :=
  match l with
  | .blank => st
  | .malformed _ => st
  | .msg m => (handle_message st m).1

/-- `MCPClient._read_loop` (mcp_client.py:100-129) over the whole inbound
stream: `[]` is end-of-stream (the `for` loop ends and the thread only
logs and returns — nothing else happens to the state). -/
def read_loop : ClientState → List Line → ClientState
  | st, [] => st
  | st, l :: ls => if st.running then read_loop (read_step st l) ls else st

/-- `MCPClient.stop` (mcp_client.py:80-98) as it acts on the modelled
state: clears `running` and tears the process down; `pending_requests` is
not touched anywhere in `stop`. -/
def stop (st : ClientState) : ClientState :=
  { st with running := false }

/-- A reply message carrying only an `id` and a `result`. -/
def replyMsg (rid : Int) (v : JVal) : Message :=
  { id := some rid, result := some v }

end MCPClient

end MCP

namespace MCP

/-! ## Server (`mcp_server.py`) -/

/-- The `ErrorCode` enum (mcp_server.py:26-32). -/
inductive ErrorCode where
  | PARSE_ERROR
  | INVALID_REQUEST
  | METHOD_NOT_FOUND
  | INVALID_PARAMS
  | INTERNAL_ERROR
  deriving DecidableEq

/-- `ErrorCode.value` of the enum members. -/
def ErrorCode.value : ErrorCode → Int
  | .PARSE_ERROR => -32700
  | .INVALID_REQUEST => -32600
  | .METHOD_NOT_FOUND => -32601
  | .INVALID_PARAMS => -32602
  | .INTERNAL_ERROR => -32603

/-- The `Tool` dataclass (mcp_server.py:35-40). -/
structure Tool where
  name : String
  description : String
  inputSchema : JVal

/-- The `Resource` dataclass (mcp_server.py:43-49). -/
structure Resource where
  uri : String
  name : String
  description : String
  mimeType : String

/-- The `Prompt` dataclass (mcp_server.py:52-57); `arguments` is the
JSON list of argument descriptors. -/
structure Prompt where
  name : String
  description : String
  arguments : JVal

/-- `dataclasses.asdict` on a `Tool`. -/
def Tool.asdict (t : Tool) : JVal :=
  .obj [("name", .str t.name), ("description", .str t.description),
        ("inputSchema", t.inputSchema)]

/-- `dataclasses.asdict` on a `Resource`. -/
def Resource.asdict (r : Resource) : JVal :=
  .obj [("uri", .str r.uri), ("name", .str r.name),
        ("description", .str r.description), ("mimeType", .str r.mimeType)]

/-- `dataclasses.asdict` on a `Prompt`. -/
def Prompt.asdict (p : Prompt) : JVal :=
  .obj [("name", .str p.name), ("description", .str p.description),
        ("arguments", p.arguments)]

/-- The state of an `MCPServer` (mcp_server.py:63-86): identity, the
`initialized` flag, and the six registration dicts populated by
`register_tool` / `register_resource` / `register_prompt`.  A tool or
prompt handler is a Python callable on the decoded `arguments`; a
resource handler takes no argument; either may raise (`Except`). -/
structure MCPServer where
  name : String
  version : String
  protocol_version : String := "2024-11-05"
  initialized : Bool := false
  tools : List (String × Tool) := []
  tool_handlers : List (String × (JVal → Except PyExc JVal)) := []
  resources : List (String × Resource) := []
  resource_handlers : List (String × (Unit → Except PyExc JVal)) := []
  prompts : List (String × Prompt) := []
  prompt_handlers : List (String × (JVal → Except PyExc JVal)) := []

namespace MCPServer

/-- The keys of `self.methods` (mcp_server.py:78-86). -/
def methodNames : List String :=
  ["initialize", "tools/list", "tools/call", "resources/list",
   "resources/read", "prompts/list", "prompts/get"]

/-- Result of running one registered method handler: the value returned
or the exception raised, the server state after the call (only
`initialize` mutates it), and a trace of the user-registered callbacks
that were actually invoked (used to state "no handler is invoked"). -/
abbrev DispatchResult := Except PyExc JVal × MCPServer × List String

/-- `MCPServer._handle_initialize` (mcp_server.py:116-139): records
`initialized = True` and returns the protocol/capabilities/serverInfo
result. -/
def handle_initialize (srv : MCPServer) (_params : List (String × JVal)) :
    DispatchResult :=
  (.ok (.obj
      [("protocolVersion", .str srv.protocol_version),
       ("capabilities", .obj
          [("resources", .obj []), ("tools", .obj []),
           ("prompts", .obj []), ("logging", .obj [])]),
       ("serverInfo", .obj
          [("name", .str srv.name), ("version", .str srv.version)])]),
   { srv with initialized := true }, [])

/-- `MCPServer._handle_tools_list` (mcp_server.py:141-145). -/
def handle_tools_list (srv : MCPServer) (_params : List (String × JVal)) :
    DispatchResult :=
  (.ok (.obj [("tools", .arr (srv.tools.map (fun kv => kv.2.asdict)))]),
   srv, [])

/-- `MCPServer._handle_tools_call` (mcp_server.py:147-180): an
unregistered `name` raises `ValueError("Tool not found: ...")` OUTSIDE
the try block; a registered handler is invoked inside `try`, and any
exception it raises is converted into a SUCCESS payload with
`isError: true` and text `"Error: " + str(e)`. -/
def handle_tools_call (srv : MCPServer) (params : List (String × JVal)) :
    DispatchResult :=
  let tool_name := pyLookup params "name"
  let arguments := (pyLookup params "arguments").getD (.obj [])
  match strKey tool_name with
  | some s =>
      match pyLookup srv.tool_handlers s with
      | some handler =>
          match handler arguments with
          | .ok result =>
              (.ok (.obj
                  [("content", .arr [.obj
                      [("type", .str "text"), ("text", .str (pyStr result))]]),
                   ("isError", .bool false)]),
               srv, ["tool:" ++ s])
          | .error e =>
              (.ok (.obj
                  [("content", .arr [.obj
                      [("type", .str "text"),
                       ("text", .str ("Error: " ++ e.text))]]),
                   ("isError", .bool true)]),
               srv, ["tool:" ++ s])
      | none =>
          (.error (.valueError ("Tool not found: " ++ pyStrOpt tool_name)),
           srv, [])
  | none =>
      (.error (.valueError ("Tool not found: " ++ pyStrOpt tool_name)),
       srv, [])

/-- `MCPServer._handle_resources_list` (mcp_server.py:182-186). -/
def handle_resources_list (srv : MCPServer) (_params : List (String × JVal)) :
    DispatchResult :=
  (.ok (.obj [("resources", .arr (srv.resources.map (fun kv => kv.2.asdict)))]),
   srv, [])

/-- `MCPServer._handle_resources_read` (mcp_server.py:188-208): an
unregistered `uri` raises `ValueError`; a registered handler is invoked
with no try/except, so whatever it raises propagates to
`handle_request`; the response then reads `self.resources[uri].mimeType`
(a missing `resources` entry would be a `KeyError`, i.e. a non-ValueError
exception). -/
def handle_resources_read (srv : MCPServer) (params : List (String × JVal)) :
    DispatchResult :=
  let uri := pyLookup params "uri"
  match strKey uri with
  | some u =>
      match pyLookup srv.resource_handlers u with
      | some handler =>
          match handler () with
          | .ok content =>
              match pyLookup srv.resources u with
              | some res =>
                  (.ok (.obj [("contents", .arr [.obj
                      [("uri", .str u), ("mimeType", .str res.mimeType),
                       ("text", content)]])]),
                   srv, ["resource:" ++ u])
              | none =>
                  (.error (.otherExc ("KeyError: " ++ u)), srv,
                   ["resource:" ++ u])
          | .error e => (.error e, srv, ["resource:" ++ u])
      | none =>
          (.error (.valueError ("Resource not found: " ++ pyStrOpt uri)),
           srv, [])
  | none =>
      (.error (.valueError ("Resource not found: " ++ pyStrOpt uri)),
       srv, [])

/-- `MCPServer._handle_prompts_list` (mcp_server.py:210-214). -/
def handle_prompts_list (srv : MCPServer) (_params : List (String × JVal)) :
    DispatchResult :=
  (.ok (.obj [("prompts", .arr (srv.prompts.map (fun kv => kv.2.asdict)))]),
   srv, [])

/-- `MCPServer._handle_prompts_get` (mcp_server.py:216-232): an
unregistered `name` raises `ValueError`; the handler's exceptions
propagate; the response reads `self.prompts[name].description`. -/
def handle_prompts_get (srv : MCPServer) (params : List (String × JVal)) :
    DispatchResult :=
  let prompt_name := pyLookup params "name"
  let arguments := (pyLookup params "arguments").getD (.obj [])
  match strKey prompt_name with
  | some s =>
      match pyLookup srv.prompt_handlers s with
      | some handler =>
          match handler arguments with
          | .ok messages =>
              match pyLookup srv.prompts s with
              | some p =>
                  (.ok (.obj [("description", .str p.description),
                              ("messages", messages)]),
                   srv, ["prompt:" ++ s])
              | none =>
                  (.error (.otherExc ("KeyError: " ++ s)), srv,
                   ["prompt:" ++ s])
          | .error e => (.error e, srv, ["prompt:" ++ s])
      | none =>
          (.error (.valueError ("Prompt not found: " ++ pyStrOpt prompt_name)),
           srv, [])
  | none =>
      (.error (.valueError ("Prompt not found: " ++ pyStrOpt prompt_name)),
       srv, [])

/-- `self.methods[method](params)` for a key of `methodNames`
(mcp_server.py:78-86, 309-310). -/
def dispatch (srv : MCPServer) (m : String) (params : List (String × JVal)) :
    DispatchResult :=
  if m = "initialize" then srv.handle_initialize params
  else if m = "tools/list" then srv.handle_tools_list params
  else if m = "tools/call" then srv.handle_tools_call params
  else if m = "resources/list" then srv.handle_resources_list params
  else if m = "resources/read" then srv.handle_resources_read params
  else if m = "prompts/list" then srv.handle_prompts_list params
  else if m = "prompts/get" then srv.handle_prompts_get params
  else (.error (.otherExc "KeyError"), srv, [])

/-- `MCPServer._create_error_response` (mcp_server.py:234-251); `if data:`
is Python truthiness, so an empty dict is omitted like `None`. -/
def create_error_response (request_id : Option Int) (code : ErrorCode)
    (message : String) (data : Option (List (String × JVal))) : Message :=
  let dataField : Option (List (String × JVal)) :=
    match data with
    | some d => if d.isEmpty then none else some d
    | none => none
  { jsonrpc := some "2.0", id := request_id,
    error := some { code := code.value, message := message, data := dataField } }

/-- `MCPServer._create_success_response` (mcp_server.py:253-260). -/
def create_success_response (request_id : Option Int) (result : JVal) :
    Message :=
  { jsonrpc := some "2.0", id := request_id, result := some result }

/-- `MCPServer.handle_request` (mcp_server.py:278-335): returns the reply
to write back (`none` for notifications and for the `initialized`
notification), the new server state, and the invocation trace (the
dispatched method name followed by the user callbacks it ran). -/
def handle_request (srv : MCPServer) (request : Message) :
    Option Message × MCPServer × List String :=
  let request_id := request.id
  let params := request.params.getD []
  let is_notification := request_id.isNone
  if request.method = some "notifications/initialized" then (none, srv, [])
  else
    match request.method with
    | some m =>
        if methodNames.contains m then
          match srv.dispatch m params with
          | (.ok result, srv1, tr) =>
              ((if is_notification then none
                else some (create_success_response request_id result)),
               srv1, m :: tr)
          | (.error (.valueError e), srv1, tr) =>
              ((if is_notification then none
                else some (create_error_response request_id .INVALID_PARAMS
                  e none)),
               srv1, m :: tr)
          | (.error (.otherExc e), srv1, tr) =>
              ((if is_notification then none
                else some (create_error_response request_id .INTERNAL_ERROR
                  "Internal server error" (some [("details", .str e)]))),
               srv1, m :: tr)
        else
          ((if is_notification then none
            else some (create_error_response request_id .METHOD_NOT_FOUND
              ("Method not found: " ++ m) (some [("method", .str m)]))),
           srv, [])
    | none =>
        ((if is_notification then none
          else some (create_error_response request_id .METHOD_NOT_FOUND
            "Method not found: None" (some [("method", .null)]))),
         srv, [])

/-- The reply `run` writes for an undecodable line (mcp_server.py:352-359). -/
def parse_error_response : Message :=
  create_error_response none .PARSE_ERROR "Parse error" none

/-- `MCPServer.run` (mcp_server.py:337-365) over a whole inbound stream:
blank lines are skipped; an undecodable line yields a ParseError reply
and the loop continues; a decoded request goes through `handle_request`
and a non-`None` reply is written.  Returns the ordered list of written
replies and the final server state. -/
def run : MCPServer → List Line → List Message → List Message × MCPServer
  | srv, [], out => (out, srv)
  | srv, .blank :: ls, out => run srv ls out
  | srv, .malformed _ :: ls, out => run srv ls (out ++ [parse_error_response])
  | srv, .msg m :: ls, out =>
      match srv.handle_request m with
      | (some r, srv1, _) => run srv1 ls (out ++ [r])
      | (none, srv1, _) => run srv1 ls out

end MCPServer

end MCP

namespace MCP

/-! ## Helper lemmas about the client correlation engine -/

theorem handle_message_reply (st : ClientState) (rid : Int) (v : JVal)
    (q : List Message) (hq : pyLookup st.pending_requests rid = some q) :
    MCPClient.handle_message st (MCPClient.replyMsg rid v) =
      ({ st with
           pending_requests :=
             pySet st.pending_requests rid (q ++ [MCPClient.replyMsg rid v]) },
       .resolved rid) := by
  simp [MCPClient.handle_message, MCPClient.replyMsg, hq]

theorem handle_message_unknown_id (st : ClientState) (message : Message)
    (rid : Int) (hid : message.id = some rid)
    (hq : pyLookup st.pending_requests rid = none) :
    MCPClient.handle_message st message = (st, .unexpected) := by
  simp [MCPClient.handle_message, hid, hq]

theorem send_request_finish_delivers (st : ClientState) (rid : Int)
    (r : Message) (rest : List Message)
    (hq : pyLookup st.pending_requests rid = some (r :: rest)) :
    MCPClient.send_request_finish st rid =
      ({ st with pending_requests := pyErase st.pending_requests rid },
       MCPClient.deliver r) := by
  simp [MCPClient.send_request_finish, hq]

theorem send_request_finish_absent (st : ClientState) (rid : Int) :
    pyLookup (MCPClient.send_request_finish st rid).1.pending_requests rid =
      none := by
  unfold MCPClient.send_request_finish
  rcases hq : pyLookup st.pending_requests rid with _ | ⟨_ | ⟨r, rest⟩⟩
  · simpa using hq
  · simpa using pyLookup_pyErase_self st.pending_requests rid
  · simpa using pyLookup_pyErase_self st.pending_requests rid

/-- C1 postcondition: the two calls hold distinct identifiers with their
own (empty) pending slots, and after the reply for the second identifier
arrives before the reply for the first, caller 1 is delivered exactly
`v1` and caller 2 exactly `v2`. -/
def C1Post (stB : ClientState) (id1 id2 : Int) (v1 v2 : JVal) : Prop :=
  id1 ≠ id2 ∧
  pyLookup stB.pending_requests id1 = some [] ∧
  pyLookup stB.pending_requests id2 = some [] ∧
  (MCPClient.send_request_finish
      ((MCPClient.handle_message
          ((MCPClient.handle_message stB (MCPClient.replyMsg id2 v2)).1)
          (MCPClient.replyMsg id1 v1)).1) id1).2 = .ok v1 ∧
  (MCPClient.send_request_finish
      (MCPClient.send_request_finish
          ((MCPClient.handle_message
              ((MCPClient.handle_message stB (MCPClient.replyMsg id2 v2)).1)
              (MCPClient.replyMsg id1 v1)).1) id1).1 id2).2 = .ok v2

/-- C1: any two calls issued by the client (modelled as two successful
`_send_request` sends, the second from the state left by the first) are
assigned distinct identifiers and distinct pending slots, and when the
replies arrive in the reverse of the sending order, each caller receives
exactly the result belonging to its own identifier. -/
theorem claim_C1_concurrent_round_trip
    (st0 stA stB : ClientState) (id1 id2 : Int) (w1 w2 : Message)
    (m1 m2 : String) (p1 p2 : Option (List (String × JVal))) (v1 v2 : JVal)
    (h1 : MCPClient.send_request_start st0 m1 p1 true = .sent stA id1 w1)
    (h2 : MCPClient.send_request_start stA m2 p2 true = .sent stB id2 w2) :
    C1Post stB id1 id2 v1 v2 := by
  unfold MCPClient.send_request_start at h1 h2
  by_cases hc : st0.connected = true
  · simp only [hc, if_true, MCPClient.SendAttempt.sent.injEq] at h1
    obtain ⟨hA, hi1, -⟩ := h1
    subst hA
    subst hi1
    simp only [hc, if_true, MCPClient.SendAttempt.sent.injEq] at h2
    obtain ⟨hB, hi2, -⟩ := h2
    subst hB
    subst hi2
    have hne : ¬ (st0.next_id + 1 = st0.next_id) := by omega
    have hne' : ¬ (st0.next_id = st0.next_id + 1) := by omega
    refine ⟨by omega, ?_, ?_, ?_, ?_⟩ <;>
      simp [C1Post, MCPClient.handle_message, MCPClient.send_request_finish,
            MCPClient.replyMsg, MCPClient.deliver, pySet, pyErase, pyLookup,
            hne, hne']
  · simp [hc] at h1

/-- Concrete freshly connected client used by several witnesses. -/
def clientFreshW : ClientState :=
  { next_id := 1, pending_requests := [], running := true, connected := true,
    server_info := some (.obj []), server_capabilities := some (.obj []) }

/-- Concrete client with one in-flight call (id 1, empty queue). -/
def clientPendingW : ClientState :=
  { next_id := 2, pending_requests := [(1, [])], running := true,
    connected := true, server_info := some (.obj []),
    server_capabilities := some (.obj []) }

/-- Witness for C1: two concrete calls from a fresh client, replies
delivered in reverse order. -/
theorem claim_C1_concurrent_round_trip_witness :
    MCPClient.send_request_start clientFreshW "tools/list" none true =
      .sent
        { next_id := 2, pending_requests := [(1, [])], running := true,
          connected := true, server_info := some (.obj []),
          server_capabilities := some (.obj []) } 1
        { id := some 1, method := some "tools/list" } ∧
    MCPClient.send_request_start
        { next_id := 2, pending_requests := [(1, [])], running := true,
          connected := true, server_info := some (.obj []),
          server_capabilities := some (.obj []) } "resources/list" none true =
      .sent
        { next_id := 3, pending_requests := [(2, []), (1, [])], running := true,
          connected := true, server_info := some (.obj []),
          server_capabilities := some (.obj []) } 2
        { id := some 2, method := some "resources/list" } ∧
    C1Post
      { next_id := 3, pending_requests := [(2, []), (1, [])], running := true,
        connected := true, server_info := some (.obj []),
        server_capabilities := some (.obj []) } 1 2 (.num 10) (.num 20) := by
  exact ⟨rfl, rfl,
    claim_C1_concurrent_round_trip clientFreshW
      { next_id := 2, pending_requests := [(1, [])], running := true,
        connected := true, server_info := some (.obj []),
        server_capabilities := some (.obj []) }
      { next_id := 3, pending_requests := [(2, []), (1, [])], running := true,
        connected := true, server_info := some (.obj []),
        server_capabilities := some (.obj []) }
      1 2
      { id := some 1, method := some "tools/list" }
      { id := some 2, method := some "resources/list" }
      "tools/list" "resources/list"
      none none (.num 10) (.num 20) rfl rfl⟩

/-- C2: a call whose queue is still empty when the deadline elapses
raises a timeout error and its entry is deleted; the entry is absent by
the time `_send_request` returns regardless of outcome (for every
state); and a reply for that identifier arriving afterwards is classified
unexpected, resolving nothing and leaving the table unchanged. -/
theorem claim_C2_timeout_cleanup (st st' : ClientState) (rid : Int)
    (message : Message)
    (hq : pyLookup st.pending_requests rid = some [])
    (hmsg : message.id = some rid) :
    (MCPClient.send_request_finish st rid).2 = .timeoutError ∧
    pyLookup (MCPClient.send_request_finish st' rid).1.pending_requests rid =
      none ∧
    MCPClient.handle_message (MCPClient.send_request_finish st rid).1 message =
      ((MCPClient.send_request_finish st rid).1, .unexpected) := by
  refine ⟨?_, send_request_finish_absent st' rid, ?_⟩
  · simp [MCPClient.send_request_finish, hq]
  · exact handle_message_unknown_id _ _ rid hmsg (send_request_finish_absent st rid)

/-- Witness for C2 at a concrete client with call 1 in flight. -/
theorem claim_C2_timeout_cleanup_witness :
    pyLookup clientPendingW.pending_requests 1 = some [] ∧
    (MCPClient.replyMsg 1 (.num 5)).id = some 1 ∧
    ((MCPClient.send_request_finish clientPendingW 1).2 = .timeoutError ∧
     pyLookup
       (MCPClient.send_request_finish clientPendingW 1).1.pending_requests 1 =
       none ∧
     MCPClient.handle_message (MCPClient.send_request_finish clientPendingW 1).1
         (MCPClient.replyMsg 1 (.num 5)) =
       ((MCPClient.send_request_finish clientPendingW 1).1, .unexpected)) :=
  ⟨rfl, rfl, claim_C2_timeout_cleanup clientPendingW clientPendingW 1 _ rfl rfl⟩

/-- C7: resolving pending slot `i` with message `mx` and then again with
`my` delivers exactly `mx`'s outcome to the caller — whether the second
resolution lands before the caller wakes (the dead `my` is discarded with
the slot) or after the caller returned, in which case it is classified
unexpected and the table is unchanged. -/
theorem claim_C7_duplicate_resolve (st : ClientState) (i : Int)
    (mx my : Message)
    (hq : pyLookup st.pending_requests i = some [])
    (hx : mx.id = some i) (hy : my.id = some i) :
    (MCPClient.send_request_finish
        ((MCPClient.handle_message ((MCPClient.handle_message st mx).1) my).1)
        i).2 = MCPClient.deliver mx ∧
    (MCPClient.send_request_finish ((MCPClient.handle_message st mx).1) i).2 =
      MCPClient.deliver mx ∧
    MCPClient.handle_message
        (MCPClient.send_request_finish ((MCPClient.handle_message st mx).1) i).1
        my =
      ((MCPClient.send_request_finish ((MCPClient.handle_message st mx).1) i).1,
       .unexpected) := by
  refine ⟨?_, ?_, ?_⟩
  · simp [MCPClient.handle_message, MCPClient.send_request_finish, hx, hy, hq,
          pySet, pyLookup]
  · simp [MCPClient.handle_message, MCPClient.send_request_finish, hx, hq,
          pySet, pyLookup]
  · simp [MCPClient.handle_message, MCPClient.send_request_finish, hx, hy, hq,
          pySet, pyLookup, pyErase, pyLookup_pyErase_self]

/-- Witness for C7 with two concrete conflicting replies for slot 1. -/
theorem claim_C7_duplicate_resolve_witness :
    pyLookup clientPendingW.pending_requests 1 = some [] ∧
    (MCPClient.replyMsg 1 (.num 1)).id = some 1 ∧
    (MCPClient.replyMsg 1 (.num 2)).id = some 1 ∧
    ((MCPClient.send_request_finish
        ((MCPClient.handle_message
            ((MCPClient.handle_message clientPendingW (MCPClient.replyMsg 1 (.num 1))).1)
            (MCPClient.replyMsg 1 (.num 2))).1)
        1).2 = MCPClient.deliver (MCPClient.replyMsg 1 (.num 1)) ∧
     (MCPClient.send_request_finish
        ((MCPClient.handle_message clientPendingW (MCPClient.replyMsg 1 (.num 1))).1)
        1).2 = MCPClient.deliver (MCPClient.replyMsg 1 (.num 1)) ∧
     MCPClient.handle_message
        (MCPClient.send_request_finish
          ((MCPClient.handle_message clientPendingW (MCPClient.replyMsg 1 (.num 1))).1)
          1).1
        (MCPClient.replyMsg 1 (.num 2)) =
      ((MCPClient.send_request_finish
          ((MCPClient.handle_message clientPendingW (MCPClient.replyMsg 1 (.num 1))).1)
          1).1,
       .unexpected)) :=
  ⟨rfl, rfl, rfl,
   claim_C7_duplicate_resolve clientPendingW 1 _ _ rfl rfl rfl⟩

/-- C3 as stated is FALSE on the code: with one call in flight (id 1),
closing the inbound stream — also during `stop()` — terminates the
reader loop without resolving the outstanding slot with any error.  The
slot is still registered with an empty queue afterwards, so the in-flight
call completes only through its own timeout (`TimeoutError`), not a
connection-closed/shutdown error. -/
theorem claim_C3_counterexample :
    MCPClient.read_loop (MCPClient.stop clientPendingW) [] =
      MCPClient.stop clientPendingW ∧
    pyLookup
      (MCPClient.read_loop (MCPClient.stop clientPendingW) []).pending_requests
      1 = some [] ∧
    (MCPClient.send_request_finish
        (MCPClient.read_loop (MCPClient.stop clientPendingW) []) 1).2 =
      .timeoutError :=
  ⟨rfl, rfl, rfl⟩

/-- C3 amended: on inbound stream closure the reader loop terminates with
`pending_requests` untouched (no slot is failed with any error), `stop()`
also leaves `pending_requests` untouched, and an in-flight call therefore
completes only through its own timeout error. -/
theorem claim_C3_amended_no_drain (st : ClientState) (i : Int)
    (hq : pyLookup st.pending_requests i = some []) :
    MCPClient.read_loop st [] = st ∧
    (MCPClient.stop st).pending_requests = st.pending_requests ∧
    (MCPClient.send_request_finish
        (MCPClient.read_loop (MCPClient.stop st) []) i).2 = .timeoutError := by
  refine ⟨rfl, rfl, ?_⟩
  show (MCPClient.send_request_finish (MCPClient.stop st) i).2 = .timeoutError
  simp [MCPClient.send_request_finish, MCPClient.stop, hq]

/-- Witness for the amended C3 at the concrete in-flight client. -/
theorem claim_C3_amended_no_drain_witness :
    pyLookup clientPendingW.pending_requests 1 = some [] ∧
    (MCPClient.read_loop clientPendingW [] = clientPendingW ∧
     (MCPClient.stop clientPendingW).pending_requests =
       clientPendingW.pending_requests ∧
     (MCPClient.send_request_finish
         (MCPClient.read_loop (MCPClient.stop clientPendingW) []) 1).2 =
       .timeoutError) :=
  ⟨rfl, claim_C3_amended_no_drain clientPendingW 1 rfl⟩

/-- Concrete spawned-but-unhandshaken client: process and stdin exist,
`server_info`/`server_capabilities` still `None` (the initialize reply
has not been processed). -/
def clientPreHandshakeW : ClientState :=
  { next_id := 1, pending_requests := [], running := true, connected := true,
    server_info := none, server_capabilities := none }

/-- C4 as stated is FALSE on the code: `_send_request` guards only on the
existence of the process and its stdin, never on handshake completion, so
a call issued after spawn but before the handshake completes (here
`server_info` is still `None`) is written to the outbound stream instead
of being rejected. -/
theorem claim_C4_counterexample :
    clientPreHandshakeW.server_info = none ∧
    MCPClient.send_request_start clientPreHandshakeW "tools/list" none true =
      .sent
        { next_id := 2, pending_requests := [(1, [])], running := true,
          connected := true, server_info := none,
          server_capabilities := none } 1
        { id := some 1, method := some "tools/list" } :=
  ⟨rfl, rfl⟩

/-- C4 amended: a call issued before the client is connected (no process
or stdin, e.g. before `start()`) is rejected with a `RuntimeError`
without anything being written to the wire; after the process is spawned
`_send_request` performs no handshake-completion check (see the C4
counterexample). -/
theorem claim_C4_amended_reject_when_disconnected (st : ClientState)
    (methodName : String) (params : Option (List (String × JVal)))
    (writeOk : Bool) (h : st.connected = false) :
    MCPClient.send_request_start st methodName params writeOk = .rejected := by
  simp [MCPClient.send_request_start, h]

/-- Witness for the amended C4 at a concrete unconnected client. -/
theorem claim_C4_amended_witness :
    (({ next_id := 1, pending_requests := [], running := false,
        connected := false, server_info := none,
        server_capabilities := none } : ClientState)).connected = false ∧
    MCPClient.send_request_start
        { next_id := 1, pending_requests := [], running := false,
          connected := false, server_info := none,
          server_capabilities := none } "tools/list" none true = .rejected :=
  ⟨rfl, claim_C4_amended_reject_when_disconnected _ "tools/list" none true rfl⟩

/-! ## Router theorems (`mcp_server.py`) -/

theorem dispatch_tools_call (srv : MCPServer) (params : List (String × JVal)) :
    srv.dispatch "tools/call" params = srv.handle_tools_call params := rfl

theorem dispatch_resources_read (srv : MCPServer)
    (params : List (String × JVal)) :
    srv.dispatch "resources/read" params = srv.handle_resources_read params :=
  rfl

theorem dispatch_prompts_get (srv : MCPServer)
    (params : List (String × JVal)) :
    srv.dispatch "prompts/get" params = srv.handle_prompts_get params := rfl

/-- C5: a request carrying an id whose method name is not one the server
handles (not a key of `self.methods`, and not the specially handled
`notifications/initialized`) is answered with an error reply of code
-32601 whose message contains the method name, and no handler is invoked
(the invocation trace is empty and the server state is unchanged). -/
theorem claim_C5_unknown_method (srv : MCPServer) (request : Message)
    (i : Int) (m : String)
    (hid : request.id = some i) (hm : request.method = some m)
    (h1 : m ≠ "notifications/initialized")
    (h2 : m ∉ MCPServer.methodNames) :
    MCPServer.handle_request srv request =
      (some (MCPServer.create_error_response (some i) .METHOD_NOT_FOUND
          ("Method not found: " ++ m) (some [("method", .str m)])),
       srv, []) ∧
    (MCPServer.create_error_response (some i) .METHOD_NOT_FOUND
        ("Method not found: " ++ m) (some [("method", .str m)])).error =
      some { code := -32601, message := "Method not found: " ++ m,
             data := some [("method", .str m)] } := by
  constructor
  · simp [MCPServer.handle_request, hid, hm, h1, h2]
  · simp [MCPServer.create_error_response, ErrorCode.value]

/-- C6: for a request carrying an id and a registered method whose
handler raises, the router converts a `ValueError` into an error reply
with code -32602 carrying the validation message, and any other fault
into an error reply with code -32603 whose message is the fixed
"Internal server error" and whose diagnostic detail appears only in the
error's `data` field. -/
theorem claim_C6_handler_fault_conversion (srv srv1 : MCPServer)
    (request : Message) (i : Int) (m : String) (pexc : PyExc)
    (tr : List String)
    (hid : request.id = some i) (hm : request.method = some m)
    (hreg : m ∈ MCPServer.methodNames)
    (hd : srv.dispatch m (request.params.getD []) = (.error pexc, srv1, tr)) :
    (MCPServer.handle_request srv request).1 =
      some { jsonrpc := some "2.0", id := some i,
             error := some (match pexc with
               | .valueError e =>
                   { code := -32602, message := e, data := none }
               | .otherExc e =>
                   { code := -32603, message := "Internal server error",
                     data := some [("details", .str e)] }) } := by
  have hni : m ≠ "notifications/initialized" := by
    rintro rfl
    exact absurd hreg (by decide)
  cases pexc with
  | valueError e =>
      simp [MCPServer.handle_request, hid, hm, hni, hreg, hd,
            MCPServer.create_error_response, ErrorCode.value]
  | otherExc e =>
      simp [MCPServer.handle_request, hid, hm, hni, hreg, hd,
            MCPServer.create_error_response, ErrorCode.value]

/-- C9: a `tools/call` request (with an id) naming a registered tool
whose handler raises any exception is answered with a SUCCESS reply (a
`result`, no `error` member) whose result carries `isError: true` and a
content text of `"Error: "` followed by the exception text; the
exception does not reach `handle_request`'s -32603 path. -/
theorem claim_C9_tool_fault_in_band (srv : MCPServer) (request : Message)
    (i : Int) (ps : List (String × JVal)) (s : String)
    (handler : JVal → Except PyExc JVal) (e : PyExc)
    (hid : request.id = some i)
    (hm : request.method = some "tools/call")
    (hp : request.params = some ps)
    (hname : pyLookup ps "name" = some (.str s))
    (hh : pyLookup srv.tool_handlers s = some handler)
    (hfail : handler ((pyLookup ps "arguments").getD (.obj [])) = .error e) :
    (MCPServer.handle_request srv request).1 =
      some { jsonrpc := some "2.0", id := some i,
             result := some (.obj
               [("content", .arr [.obj
                   [("type", .str "text"),
                    ("text", .str ("Error: " ++ e.text))]]),
                ("isError", .bool true)]) } ∧
    ({ jsonrpc := some "2.0", id := some i,
       result := some (.obj
         [("content", .arr [.obj
             [("type", .str "text"),
              ("text", .str ("Error: " ++ e.text))]]),
          ("isError", .bool true)]) } : Message).error = none := by
  have hne : "tools/call" ≠ "notifications/initialized" := by decide
  have hreg : "tools/call" ∈ MCPServer.methodNames := by decide
  refine ⟨?_, rfl⟩
  simp [MCPServer.handle_request, hid, hm, hp, hne, hreg, dispatch_tools_call,
        MCPServer.handle_tools_call, hname, strKey, hh, hfail,
        MCPServer.create_success_response]

/-- C10: a `tools/call` request (with an id) whose `name` names no
registered tool is answered with an error reply of code -32602
(InvalidParams) — not -32601 — whose message contains the tool name,
because the "Tool not found" `ValueError` raised before the inner
try/except is routed through `handle_request`'s ValueError branch. -/
theorem claim_C10_unknown_tool_invalid_params (srv : MCPServer)
    (request : Message) (i : Int) (ps : List (String × JVal)) (s : String)
    (hid : request.id = some i)
    (hm : request.method = some "tools/call")
    (hp : request.params = some ps)
    (hname : pyLookup ps "name" = some (.str s))
    (hmiss : pyLookup srv.tool_handlers s = none) :
    (MCPServer.handle_request srv request).1 =
      some { jsonrpc := some "2.0", id := some i,
             error := some { code := -32602,
                             message := "Tool not found: " ++ s,
                             data := none } } := by
  have hne : "tools/call" ≠ "notifications/initialized" := by decide
  have hreg : "tools/call" ∈ MCPServer.methodNames := by decide
  simp [MCPServer.handle_request, hid, hm, hp, hne, hreg, dispatch_tools_call,
        MCPServer.handle_tools_call, hname, strKey, hmiss, pyStrOpt, pyStr,
        MCPServer.create_error_response, ErrorCode.value]

/-- C8: an undecodable line is handled locally by both reader loops: the
client's `_read_loop` continues with exactly the state it had (so every
later line is processed as if the malformed one had not occurred), and
the server's `run` writes one ParseError reply and likewise continues
with the remaining lines. -/
theorem claim_C8_malformed_line_resilience (st : ClientState) (raw : String)
    (ls : List Line) (srv : MCPServer) (lsS : List Line) (out : List Message)
    (hr : st.running = true) :
    MCPClient.read_loop st (Line.malformed raw :: ls) =
      MCPClient.read_loop st ls ∧
    MCPServer.run srv (Line.malformed raw :: lsS) out =
      MCPServer.run srv lsS (out ++ [MCPServer.parse_error_response]) := by
  constructor
  · simp [MCPClient.read_loop, MCPClient.read_step, hr]
  · rfl

/-- A tool handler that always raises a non-ValueError exception. -/
def boomTool : JVal → Except PyExc JVal := fun _ => .error (.otherExc "boom")

/-- A resource handler that always raises a non-ValueError exception. -/
def boomResource : Unit → Except PyExc JVal :=
  fun _ => .error (.otherExc "disk offline")

/-- A prompt handler that raises a `ValueError` (validation failure). -/
def badParamsPrompt : JVal → Except PyExc JVal :=
  fun _ => .error (.valueError "missing argument: language")

/-- Concrete server used by the router witnesses. -/
def serverW : MCPServer :=
  { name := "example-server", version := "1.0.0",
    tools := [("boom", { name := "boom", description := "always fails",
                         inputSchema := .obj [] })],
    tool_handlers := [("boom", boomTool)],
    resources := [("file:///r", { uri := "file:///r", name := "R",
                                  description := "demo",
                                  mimeType := "text/plain" })],
    resource_handlers := [("file:///r", boomResource)],
    prompts := [("p", { name := "p", description := "demo prompt",
                        arguments := .arr [] })],
    prompt_handlers := [("p", badParamsPrompt)] }

/-- Witness for C5: the spec's "ghost" scenario against the concrete
server. -/
theorem claim_C5_unknown_method_witness :
    ({ id := some 7, method := some "ghost" } : Message).id = some 7 ∧
    ({ id := some 7, method := some "ghost" } : Message).method =
      some "ghost" ∧
    ("ghost" : String) ≠ "notifications/initialized" ∧
    "ghost" ∉ MCPServer.methodNames ∧
    (MCPServer.handle_request serverW { id := some 7, method := some "ghost" } =
       (some (MCPServer.create_error_response (some 7) .METHOD_NOT_FOUND
           ("Method not found: " ++ "ghost") (some [("method", .str "ghost")])),
        serverW, []) ∧
     (MCPServer.create_error_response (some 7) .METHOD_NOT_FOUND
         ("Method not found: " ++ "ghost")
         (some [("method", .str "ghost")])).error =
       some { code := -32601, message := "Method not found: " ++ "ghost",
              data := some [("method", .str "ghost")] }) :=
  ⟨rfl, rfl, by decide, by decide,
   claim_C5_unknown_method serverW _ 7 "ghost" rfl rfl (by decide) (by decide)⟩

/-- Witness for C6: a ValueError-raising prompt handler yields -32602 and
a non-ValueError resource handler fault yields -32603 with the detail in
`data`, both on the concrete server. -/
theorem claim_C6_handler_fault_conversion_witness :
    (({ id := some 3, method := some "prompts/get",
        params := some [("name", .str "p")] } : Message).id = some 3 ∧
     ({ id := some 3, method := some "prompts/get",
        params := some [("name", .str "p")] } : Message).method =
       some "prompts/get" ∧
     "prompts/get" ∈ MCPServer.methodNames ∧
     serverW.dispatch "prompts/get"
         (({ id := some 3, method := some "prompts/get",
             params := some [("name", .str "p")] } : Message).params.getD []) =
       (.error (.valueError "missing argument: language"), serverW,
        ["prompt:" ++ "p"]) ∧
     (MCPServer.handle_request serverW
         { id := some 3, method := some "prompts/get",
           params := some [("name", .str "p")] }).1 =
       some { jsonrpc := some "2.0", id := some 3,
              error := some { code := -32602,
                              message := "missing argument: language",
                              data := none } }) ∧
    (({ id := some 4, method := some "resources/read",
        params := some [("uri", .str "file:///r")] } : Message).id = some 4 ∧
     ({ id := some 4, method := some "resources/read",
        params := some [("uri", .str "file:///r")] } : Message).method =
       some "resources/read" ∧
     "resources/read" ∈ MCPServer.methodNames ∧
     serverW.dispatch "resources/read"
         (({ id := some 4, method := some "resources/read",
             params := some [("uri", .str "file:///r")] } : Message).params.getD
           []) =
       (.error (.otherExc "disk offline"), serverW,
        ["resource:" ++ "file:///r"]) ∧
     (MCPServer.handle_request serverW
         { id := some 4, method := some "resources/read",
           params := some [("uri", .str "file:///r")] }).1 =
       some { jsonrpc := some "2.0", id := some 4,
              error := some { code := -32603,
                              message := "Internal server error",
                              data := some [("details",
                                .str "disk offline")] } }) :=
  ⟨⟨rfl, rfl, by decide, rfl,
    claim_C6_handler_fault_conversion serverW serverW
      { id := some 3, method := some "prompts/get",
        params := some [("name", .str "p")] } 3 "prompts/get"
      (.valueError "missing argument: language") ["prompt:" ++ "p"]
      rfl rfl (by decide) rfl⟩,
   ⟨rfl, rfl, by decide, rfl,
    claim_C6_handler_fault_conversion serverW serverW
      { id := some 4, method := some "resources/read",
        params := some [("uri", .str "file:///r")] } 4 "resources/read"
      (.otherExc "disk offline") ["resource:" ++ "file:///r"]
      rfl rfl (by decide) rfl⟩⟩

/-- Witness for C9: calling the registered always-raising tool on the
concrete server yields the in-band error payload inside a success reply. -/
theorem claim_C9_tool_fault_in_band_witness :
    ({ id := some 5, method := some "tools/call",
       params := some [("name", .str "boom"),
                       ("arguments", .obj [("x", .num 1)])] } : Message).id =
      some 5 ∧
    pyLookup [("name", JVal.str "boom"),
              ("arguments", JVal.obj [("x", JVal.num 1)])] "name" =
      some (.str "boom") ∧
    pyLookup serverW.tool_handlers "boom" = some boomTool ∧
    boomTool ((pyLookup [("name", JVal.str "boom"),
                         ("arguments", JVal.obj [("x", JVal.num 1)])]
        "arguments").getD (.obj [])) = .error (.otherExc "boom") ∧
    ((MCPServer.handle_request serverW
        { id := some 5, method := some "tools/call",
          params := some [("name", .str "boom"),
                          ("arguments", .obj [("x", .num 1)])] }).1 =
      some { jsonrpc := some "2.0", id := some 5,
             result := some (.obj
               [("content", .arr [.obj
                   [("type", .str "text"),
                    ("text", .str ("Error: " ++ PyExc.text (.otherExc "boom")))]]),
                ("isError", .bool true)]) } ∧
     ({ jsonrpc := some "2.0", id := some 5,
        result := some (.obj
          [("content", .arr [.obj
              [("type", .str "text"),
               ("text", .str ("Error: " ++ PyExc.text (.otherExc "boom")))]]),
           ("isError", .bool true)]) } : Message).error = none) :=
  ⟨rfl, rfl, rfl, rfl,
   claim_C9_tool_fault_in_band serverW _ 5 _ "boom" boomTool
     (.otherExc "boom") rfl rfl rfl rfl rfl rfl⟩

/-- Witness for C10: calling an unregistered tool name on the concrete
server yields -32602 with the name in the message. -/
theorem claim_C10_unknown_tool_invalid_params_witness :
    ({ id := some 6, method := some "tools/call",
       params := some [("name", .str "ghost-tool")] } : Message).id =
      some 6 ∧
    pyLookup [("name", JVal.str "ghost-tool")] "name" =
      some (.str "ghost-tool") ∧
    pyLookup serverW.tool_handlers "ghost-tool" = none ∧
    (MCPServer.handle_request serverW
        { id := some 6, method := some "tools/call",
          params := some [("name", .str "ghost-tool")] }).1 =
      some { jsonrpc := some "2.0", id := some 6,
             error := some { code := -32602,
                             message := "Tool not found: " ++ "ghost-tool",
                             data := none } } :=
  ⟨rfl, rfl, rfl,
   claim_C10_unknown_tool_invalid_params serverW _ 6 _ "ghost-tool"
     rfl rfl rfl rfl rfl⟩

/-- Witness for C8: one undecodable line against the concrete client and
server states. -/
theorem claim_C8_malformed_line_resilience_witness :
    clientFreshW.running = true ∧
    (MCPClient.read_loop clientFreshW [Line.malformed "not json"] =
       MCPClient.read_loop clientFreshW [] ∧
     MCPServer.run serverW [Line.malformed "not json"] [] =
       MCPServer.run serverW [] ([] ++ [MCPServer.parse_error_response])) :=
  ⟨rfl, claim_C8_malformed_line_resilience clientFreshW "not json" [] serverW
    [] [] rfl⟩
